import Mathlib

set_option maxRecDepth 4000

/-!
Verification of the book-scanner client against its specification.

The definitions below are shallow embeddings of the TypeScript source:
network responses appear as oracle parameters (an `Except Unit _` value is
`.error ()` when the fetch threw, the response was not OK, or the body
failed to parse), JavaScript truthiness on optional strings is made
explicit, and the React state updates are modelled as pure functions on
explicit state records.
-/

namespace BookScanner

/-- Character class of the normalization regex `[^0-9Xx]` used by
`normalizeISBN` in `src/utils/scannerUtils.ts` and by the inline
normalizations in `useBookByISBN.ts`, `App.tsx`, `Scanner.tsx`: a character
survives when it is in the range 0-9 or is the letter X or x. -/
def isISBNChar (c : Char) : Bool :=
  ('0' ≤ c && c ≤ '9') || c == 'X' || c == 'x'

/-- Scan of `raw.replace(/[^0-9Xx]/g, '')` over the character sequence:
every character matching `[^0-9Xx]` is replaced by the empty string,
every other character is kept. -/
def stripNonISBN : List Char → List Char
  | [] => []
  | c :: cs => if isISBNChar c then c :: stripNonISBN cs else stripNonISBN cs

/-- normalizeISBN from `src/utils/scannerUtils.ts`:
`raw.replace(/[^0-9Xx]/g, '')`. -/
def normalizeISBN (raw : String) : String :=
  String.mk (stripNonISBN raw.data)

/-- JavaScript truthiness of an optional string: `undefined`/`null` and the
empty string are falsy, every other string is truthy. -/
def jsStr : Option String → Option String
  | none => none
  | some s => if s = "" then none else some s

/-- the JavaScript idiom `s || d` on an optional string `s`. -/
def jsOrElse (s : Option String) (d : String) : String :=
  (jsStr s).getD d

/-- Result shape of both resolvers: `{title: string; authors: string[]}`. -/
structure BookData where
  title : String
  authors : List String
  deriving DecidableEq

/-- an author object inside an OpenLibrary `jscmd=data` entry, as read by
`fetchBookByISBN` in `scannerUtils.ts`/`App.tsx`: its `name` may be missing. -/
structure OLAuthor where
  name : Option String
  deriving DecidableEq

/-- an OpenLibrary `data[\x22ISBN:\x22 + isbn]` entry: `title` may be missing
(or empty, which JavaScript treats the same), `authors` is `none` when the
field is not an array. -/
structure OLEntry where
  title : Option String
  authors : Option (List OLAuthor)
  deriving DecidableEq

/-- author names of a primary match:
`Array.isArray(entry.authors) ? entry.authors.map(a => a.name).filter(Boolean) : []`. -/
def primaryAuthors (authors : Option (List OLAuthor)) : List String :=
  match authors with
  | none => []
  | some l => l.filterMap (fun a => jsStr a.name)

/-- the book built from a truthy primary entry in `scannerUtils.ts`/`App.tsx`:
`{title: entry.title || 'Untitled', authors: ...}`. -/
def entryBook (e : OLEntry) : BookData :=
  { title := jsOrElse e.title "Untitled", authors := primaryAuthors e.authors }

/-- first-occurrence replacement on character lists, the behaviour of
JavaScript `String.prototype.replace` with a string pattern. -/
def replaceFirstChars (pat repl : List Char) : List Char → List Char
  | [] => if pat = [] then repl else []
  | c :: cs =>
      if pat.isPrefixOf (c :: cs) then repl ++ (c :: cs).drop pat.length
      else c :: replaceFirstChars pat repl cs

/-- first-occurrence replacement on strings (JavaScript `s.replace(pat, repl)`
with a string pattern). -/
def replaceFirst (s pat repl : String) : String :=
  String.mk (replaceFirstChars pat.data repl.data s.data)

/-- an element of `worksJson.authors`: an object whose `key` may be missing. -/
structure AuthorRef where
  key : Option String
  deriving DecidableEq

/-- the parsed body of `https://openlibrary.org/isbn/(isbn).json`: `title` may
be missing or empty, `authors` is `none` when the field is not an array. -/
structure WorksJson where
  title : Option String
  authors : Option (List AuthorRef)
  deriving DecidableEq

/-- outcome of one author fetch inside the works fallback loop: the request
threw (caught and skipped), responded not-OK, or parsed with an optional
`name` field. -/
inductive AuthorFetchResult where
  | threw
  | notOk
  | ok (name : Option String)
  deriving DecidableEq

/-- author ids of the works fallback:
`worksJson.authors.map(a => a.key?.replace('/authors/', '').replace('/', '')).filter(Boolean)`. -/
def authorIds (refs : List AuthorRef) : List String :=
  refs.filterMap (fun a =>
    jsStr (a.key.map (fun k => replaceFirst (replaceFirst k "/authors/" "") "/" "")))

/-- the author-name accumulation loop of the works fallback: for each id the
fetched record contributes its `name` exactly when the fetch succeeded and
the name is truthy. -/
def secondaryAuthors (oracle : String → AuthorFetchResult) (refs : List AuthorRef) :
    List String :=
  (authorIds refs).filterMap (fun id =>
    match oracle id with
    | AuthorFetchResult.ok n => jsStr n
    | _ => none)

/-- the works-JSON fallback block of `fetchBookByISBN` in
`scannerUtils.ts`/`App.tsx`: on a parsed response it always returns a book,
defaulting the title to Untitled and resolving author names through the
per-id fetches; on a thrown/not-OK/unparsable response it falls through. -/
def runSecondary (secondary : Except Unit WorksJson)
    (oracle : String → AuthorFetchResult) : Option BookData :=
  match secondary with
  | Except.error _ => none
  | Except.ok wj =>
      let authors :=
        match wj.authors with
        | some refs => if refs.length ≠ 0 then secondaryAuthors oracle refs else []
        | none => []
      some { title := jsOrElse wj.title "Untitled", authors := authors }

/-- fetchBookByISBN from `src/utils/scannerUtils.ts` (the same code appears in
`App.tsx`). The two network interactions are oracles: `primary` is the
OpenLibrary `jscmd=data` call (`.ok none` when no entry sits under the
`ISBN:` key), `secondary` and `authorOracle` drive the works fallback. -/
def fetchBookByISBN (isbnRaw : String)
    (primary : Except Unit (Option OLEntry))
    (secondary : Except Unit WorksJson)
    (authorOracle : String → AuthorFetchResult) : Option BookData :=
  let isbn := normalizeISBN isbnRaw
  if isbn = "" then none
  else
    match primary with
    | Except.ok (some entry) => some (entryBook entry)
    | _ => runSecondary secondary authorOracle

/-- an author object as typed in `useBookByISBN.ts` (`{name: string}`). -/
structure HookAuthor where
  name : String
  deriving DecidableEq

/-- an OpenLibrary entry as read by `fetchBookByISBN` in `useBookByISBN.ts`. -/
structure HookEntry where
  title : Option String
  authors : Option (List HookAuthor)
  deriving DecidableEq

/-- `data.items[0].volumeInfo` of the Google Books fallback in
`useBookByISBN.ts`. -/
structure GBVolume where
  title : Option String
  authors : Option (List String)
  deriving DecidableEq

/-- the Google Books fallback block of `useBookByISBN.ts`: `.ok none` models a
response without `data.items[0]`; a matched volume defaults its title to
Unknown Title and its authors to the empty list. -/
def runHookSecondary (secondary : Except Unit (Option GBVolume)) : Option BookData :=
  match secondary with
  | Except.ok (some book) =>
      some { title := jsOrElse book.title "Unknown Title",
             authors := book.authors.getD [] }
  | _ => none

/-- fetchBookByISBN from `src/hooks/useBookByISBN.ts`: the primary branch
returns only when the entry exists and has a truthy title
(`if (entry && entry.title)`), otherwise control reaches the Google Books
fallback. -/
def fetchBookByISBNHook (isbnRaw : String)
    (primary : Except Unit (Option HookEntry))
    (secondary : Except Unit (Option GBVolume)) : Option BookData :=
  let isbn := normalizeISBN isbnRaw
  if isbn = "" then none
  else
    match primary with
    | Except.ok (some entry) =>
        match jsStr entry.title with
        | some t =>
            some { title := t, authors := (entry.authors.getD []).map (fun a => a.name) }
        | none => runHookSecondary secondary
    | _ => runHookSecondary secondary

/-- an action the `ISBNFetcher` effect (`ISBNFetcher.tsx`) can perform on one
run: save a book, report an error message, or do nothing. -/
inductive FetcherAction where
  | saveBook (isbn title : String) (authors : List String) (groupId : String)
  | reportError (message : String)
  | idle
  deriving DecidableEq

/-- the effect body of `ISBNFetcher.tsx`: `if (isbn && bookData && activeGroupId)`
save the book, `else if (isbn && error)` report `No data found for (isbn)`,
else do nothing. `queryError` is `none` when the react-query `error` is null. -/
def isbnFetcherEffect (isbn : Option String) (bookData : Option BookData)
    (queryError : Option String) (activeGroupId : Option String) : FetcherAction :=
  match jsStr isbn, bookData, jsStr activeGroupId with
  | some i, some bd, some g => FetcherAction.saveBook i bd.title bd.authors g
  | _, _, _ =>
      match jsStr isbn, queryError with
      | some i, some _ => FetcherAction.reportError ("No data found for " ++ i)
      | _, _ => FetcherAction.idle

/-- outcome react-query hands to `ISBNFetcher` for a query whose function
resolved (did not throw): `data` is the resolved value and `error` stays
null. `fetchBookByISBN` catches every request failure and returns, so its
query always settles this way. -/
def queryOutcome (result : Option BookData) : Option BookData × Option String :=
  (result, none)

/-- handleScanned of `Scanner.tsx`: normalize, drop empty results, otherwise
emit the normalized ISBN through `onScanned`; the returned option is the
emitted value. -/
def scannerHandleScanned (raw : String) : Option String :=
  let isbn := normalizeISBN raw
  if isbn = "" then none else some isbn

/-- checkDuplicateScan from `src/utils/scannerUtils.ts`:
`recentScans.has(isbn)`. The JavaScript `Set` is modelled as the list of its
elements in insertion order. -/
def checkDuplicateScan (isbn : String) (recentScans : List String) : Bool :=
  recentScans.contains isbn

/-- result of one `handleScanned` call in the scan pipeline: the scan was
ignored, or a metadata lookup for the given ISBN was started. -/
inductive ScanStep where
  | ignored
  | lookup (isbn : String)
  deriving DecidableEq

/-- handleScanned of the App variant in `unnamed/part_005`: normalize; return
on empty; return when the ISBN is in `recentScans`; otherwise add it to the
set, schedule its removal after 5000 ms, and look it up. The result is the
action taken, the updated set, and the scheduled removal (code, delay). -/
def p5HandleScanned (raw : String) (recentScans : List String) :
    ScanStep × List String × Option (String × Nat) :=
  let isbn := normalizeISBN raw
  if isbn = "" then (ScanStep.ignored, recentScans, none)
  else if recentScans.contains isbn then (ScanStep.ignored, recentScans, none)
  else (ScanStep.lookup isbn, recentScans ++ [isbn], some (isbn, 5000))

/-- a group as held in `ScannerInterface.tsx` state (`{id, name}`); the App
variants call the same shape a box. -/
structure Group where
  id : String
  name : String
  deriving DecidableEq

/-- a scanned book as held in client state: `{id, isbn, title, authors,
groupId?}` (the App variants name the optional reference `boxId`). -/
structure BookItem where
  id : String
  isbn : String
  title : String
  authors : List String
  groupId : Option String
  deriving DecidableEq

/-- handleScanned of the App variant in `unnamed/part_004`: normalize; return
on empty; when an item with this ISBN already sits in the active box, set a
status message and return without looking anything up; otherwise start the
lookup. -/
def p4HandleScanned (raw : String) (items : List BookItem) (activeBoxId : String) :
    ScanStep :=
  let isbn := normalizeISBN raw
  if isbn = "" then ScanStep.ignored
  else
    match items.find? (fun it => it.isbn == isbn && it.groupId == some activeBoxId) with
    | some _ => ScanStep.ignored
    | none => ScanStep.lookup isbn

/-- the `ScannerInterface.tsx` state touched by export/import and group
clearing. -/
structure AppState where
  groups : List Group
  items : List BookItem
  activeGroupId : String
  deriving DecidableEq

/-- the document written by exportJSON: `{groups, items}`. -/
structure ExportDoc where
  groups : List Group
  items : List BookItem
  deriving DecidableEq

/-- exportJSON of `ScannerInterface.tsx`: `const data = {groups, items}`. -/
def exportJSON (s : AppState) : ExportDoc :=
  { groups := s.groups, items := s.items }

/-- a parsed import file as onImportJSON reads it: each field is `none` when
it is missing or otherwise JavaScript-falsy (a present array, even an empty
one, is truthy). -/
structure ImportDoc where
  groups : Option (List Group)
  items : Option (List BookItem)
  deriving DecidableEq

/-- the browser JSON round trip applied to an exported document:
`JSON.parse(JSON.stringify({groups, items}))` parses back to the same two
arrays, both present and truthy. -/
def parseExported (d : ExportDoc) : Option ImportDoc :=
  some { groups := some d.groups, items := some d.items }

/-- the active-group expression of onImportJSON:
`data.groups?.[0]?.id || 'GROUP-1'`. -/
def importedActiveGroupId (gs : List Group) : String :=
  match gs with
  | [] => "GROUP-1"
  | g :: _ => if g.id = "" then "GROUP-1" else g.id

/-- onImportJSON of `ScannerInterface.tsx` applied to the parsed file
contents (`none` models `JSON.parse` throwing, which only alerts): state is
replaced only when both `data.groups` and `data.items` are truthy. -/
def onImportJSON (parsed : Option ImportDoc) (s : AppState) : AppState :=
  match parsed with
  | none => s
  | some d =>
      match d.groups, d.items with
      | some gs, some its =>
          { groups := gs, items := its, activeGroupId := importedActiveGroupId gs }
      | _, _ => s

/-- clearGroup of `ScannerInterface.tsx` (clearBox in `App.tsx`):
`items.map(it => it.groupId === id ? {...it, groupId: undefined} : it)`. -/
def clearGroup (id : String) (items : List BookItem) : List BookItem :=
  items.map (fun it => if it.groupId = some id then { it with groupId := none } else it)

/-- clearGroup lifted to the full state: only `items` is written. -/
def clearGroupState (id : String) (s : AppState) : AppState :=
  { s with items := clearGroup id s.items }

/-- a row of the `books` table from the migration, restricted to the columns
the uniqueness constraint and the claims mention. -/
structure BookRow where
  user_id : String
  isbn : String
  title : String
  group_id : Option String
  deriving DecidableEq

/-- two rows collide on `UNIQUE(user_id, isbn, group_id)` under PostgreSQL
semantics: `NULL` compares distinct from everything, so rows whose
`group_id` is null never collide. -/
def conflicts (r₁ r₂ : BookRow) : Bool :=
  r₁.user_id == r₂.user_id && r₁.isbn == r₂.isbn &&
    match r₁.group_id, r₂.group_id with
    | some g₁, some g₂ => g₁ == g₂
    | _, _ => false

/-- an insert into `books` as the unique constraint admits it: rejected
(`none`) exactly when some existing row collides. -/
def insertBook (t : List BookRow) (r : BookRow) : Option (List BookRow) :=
  if t.any (conflicts r) then none else some (r :: t)

/-- effect of deleting a group on the `books` table: `ON DELETE SET NULL` on
`books.group_id` nulls the reference of every book in that group. -/
def deleteGroupRows (g : String) (t : List BookRow) : List BookRow :=
  t.map (fun r => if r.group_id = some g then { r with group_id := none } else r)

/-- table states reachable through the data layer: start empty; accepted
inserts, group deletions (set-null cascade) and row deletions. -/
inductive ReachableTable : List BookRow → Prop where
  | empty : ReachableTable []
  | insert (t r t') : ReachableTable t → insertBook t r = some t' → ReachableTable t'
  | delGroup (t g) : ReachableTable t → ReachableTable (deleteGroupRows g t)
  | remove (t r) : ReachableTable t → ReachableTable (t.erase r)

/-- literal triple equality of the claim: two rows have the same
(owner, identifier, group) with a null group counted as a value. -/
def sameTriple (r₁ r₂ : BookRow) : Bool :=
  r₁.user_id == r₂.user_id && r₁.isbn == r₂.isbn && r₁.group_id == r₂.group_id

/-- no two rows of the table carry the same (owner, identifier, group)
triple, null group included — the claim's literal invariant. -/
def noDupTriples : List BookRow → Bool
  | [] => true
  | r :: rs => !(rs.any (sameTriple r)) && noDupTriples rs

/-- no two rows of the table collide in the sense of the SQL constraint
(same owner, identifier and equal non-null group). -/
def noGroupedDup : List BookRow → Bool
  | [] => true
  | r :: rs => !(rs.any (conflicts r)) && noGroupedDup rs

theorem stripNonISBN_eq_filter (l : List Char) :
    stripNonISBN l = l.filter isISBNChar := by
  induction l with
  | nil => rfl
  | cons c cs ih => by_cases h : isISBNChar c <;> simp [stripNonISBN, List.filter, h, ih]

theorem isISBNChar_iff (c : Char) :
    isISBNChar c = true ↔ ('0' ≤ c ∧ c ≤ '9') ∨ c = 'X' ∨ c = 'x' := by
  simp [isISBNChar, Bool.or_eq_true, Bool.and_eq_true, decide_eq_true_iff, and_assoc,
    or_assoc]

theorem count_filter_of_pos {p : Char → Bool} {c : Char} (hc : p c = true) :
    ∀ l : List Char, (l.filter p).count c = l.count c := by
  intro l
  induction l with
  | nil => rfl
  | cons a l ih =>
      by_cases h : p a
      · simp [List.filter, h, List.count_cons, ih]
      · have hne : a ≠ c := fun he => by rw [he] at h; exact h hc
        simp [List.filter, h, List.count_cons, ih, hne]

/-- C2: `normalizeISBN` (and the identical inline normalization opening
`fetchBookByISBN`) returns exactly the subsequence of characters of the
input that are decimal digits or the letters X/x: the output is the filter
of the input by that character class, hence an order-preserving subsequence
all of whose characters belong to the class, and it retains every
occurrence of each character of the class. -/
theorem normalizeISBN_filters (raw : String) :
    (normalizeISBN raw).data
        = raw.data.filter (fun c => decide (('0' ≤ c ∧ c ≤ '9') ∨ c = 'X' ∨ c = 'x')) ∧
      List.Sublist (normalizeISBN raw).data raw.data ∧
      (∀ c ∈ (normalizeISBN raw).data, ('0' ≤ c ∧ c ≤ '9') ∨ c = 'X' ∨ c = 'x') ∧
      (∀ c, (('0' ≤ c ∧ c ≤ '9') ∨ c = 'X' ∨ c = 'x') →
        (normalizeISBN raw).data.count c = raw.data.count c) := by
  have hdata : (normalizeISBN raw).data = raw.data.filter isISBNChar := by
    simp [normalizeISBN, stripNonISBN_eq_filter]
  have hpred : ∀ c : Char,
      isISBNChar c = decide (('0' ≤ c ∧ c ≤ '9') ∨ c = 'X' ∨ c = 'x') := by
    intro c
    by_cases h : ('0' ≤ c ∧ c ≤ '9') ∨ c = 'X' ∨ c = 'x'
    · simp [h, (isISBNChar_iff c).mpr h]
    · rw [decide_eq_false h]
      exact Bool.eq_false_iff.mpr (fun ht => h ((isISBNChar_iff c).mp ht))
  refine ⟨?_, ?_, ?_, ?_⟩
  · rw [hdata]; exact List.filter_congr (fun c _ => hpred c)
  · rw [hdata]; exact List.filter_sublist raw.data
  · intro c hc
    rw [hdata] at hc
    exact (isISBNChar_iff c).mp (List.of_mem_filter hc)
  · intro c hc
    rw [hdata]
    exact count_filter_of_pos ((isISBNChar_iff c).mpr hc) raw.data

theorem normalizeISBN_filters_witness :
    (normalizeISBN "978-0x 13X!").data.count 'x'
      = ("978-0x 13X!" : String).data.count 'x' :=
  (normalizeISBN_filters "978-0x 13X!").2.2.2 'x' (Or.inr (Or.inr rfl))

/-- C7: an input whose normalization is empty is rejected before any source
is consulted: both resolver variants return null whatever the network
oracles hold, and handleScanned in `Scanner.tsx` emits nothing. -/
theorem emptyNormalization_noLookup (raw : String) (h : normalizeISBN raw = "") :
    (∀ p s ao, fetchBookByISBN raw p s ao = none) ∧
      (∀ p s, fetchBookByISBNHook raw p s = none) ∧
      scannerHandleScanned raw = none := by
  refine ⟨fun p s ao => ?_, fun p s => ?_, ?_⟩ <;>
    simp [fetchBookByISBN, fetchBookByISBNHook, scannerHandleScanned, h]

theorem emptyNormalization_noLookup_witness :
    fetchBookByISBN "- / -" (Except.ok (some { title := some "T", authors := none }))
      (Except.error ()) (fun _ => AuthorFetchResult.threw) = none :=
  (emptyNormalization_noLookup "- / -" (by decide)).1
    (Except.ok (some { title := some "T", authors := none })) (Except.error ())
    (fun _ => AuthorFetchResult.threw)

/-- C1 counterexample: in `useBookByISBN.ts` the primary source yields a
matching entry (the record under the `ISBN:` key exists) that has no title,
yet the secondary source is consulted and decides the result — with a
successful Google Books response the entry's data is not what is returned,
and with a failing one the resolver returns null. -/
theorem fallbackOrder_counterexample :
    fetchBookByISBNHook "123" (Except.ok (some { title := none, authors := none }))
        (Except.ok (some { title := some "Secondary Title", authors := some ["A"] }))
      = some { title := "Secondary Title", authors := ["A"] } ∧
    fetchBookByISBNHook "123" (Except.ok (some { title := none, authors := none }))
        (Except.error ())
      = none := by
  exact ⟨by decide, by decide⟩

/-- C1 (amended): for every normalized non-empty ISBN the primary source is
attempted first. In `scannerUtils.ts`/`App.tsx` any matching primary entry
is returned as-is and the secondary oracles are never consulted, and the
secondary source decides the result exactly when the primary attempt threw,
responded not-OK, or yielded no entry. In `useBookByISBN.ts` the same holds
except that a primary entry counts as a match only when it has a truthy
title: an entry without one also falls through to the Google Books
fallback. -/
theorem fallbackOrder (raw : String) (h : normalizeISBN raw ≠ "") :
    (∀ e s s' ao ao',
        fetchBookByISBN raw (Except.ok (some e)) s ao = some (entryBook e) ∧
        fetchBookByISBN raw (Except.ok (some e)) s ao
          = fetchBookByISBN raw (Except.ok (some e)) s' ao') ∧
      (∀ s ao, fetchBookByISBN raw (Except.error ()) s ao = runSecondary s ao) ∧
      (∀ s ao, fetchBookByISBN raw (Except.ok none) s ao = runSecondary s ao) ∧
      (∀ e t s s', jsStr e.title = some t →
        fetchBookByISBNHook raw (Except.ok (some e)) s
            = some { title := t, authors := (e.authors.getD []).map (fun a => a.name) } ∧
          fetchBookByISBNHook raw (Except.ok (some e)) s
            = fetchBookByISBNHook raw (Except.ok (some e)) s') ∧
      (∀ e s, jsStr e.title = none →
        fetchBookByISBNHook raw (Except.ok (some e)) s = runHookSecondary s) ∧
      (∀ s, fetchBookByISBNHook raw (Except.error ()) s = runHookSecondary s) ∧
      (∀ s, fetchBookByISBNHook raw (Except.ok none) s = runHookSecondary s) := by
  refine ⟨fun e s s' ao ao' => ⟨?_, ?_⟩, fun s ao => ?_, fun s ao => ?_,
    fun e t s s' ht => ⟨?_, ?_⟩, fun e s ht => ?_, fun s => ?_, fun s => ?_⟩ <;>
    simp [fetchBookByISBN, fetchBookByISBNHook, h] <;> simp [ht]

theorem fallbackOrder_witness :
    fetchBookByISBN "978-0-11" (Except.ok (some { title := some "T", authors := none }))
        (Except.error ()) (fun _ => AuthorFetchResult.threw)
      = some (entryBook { title := some "T", authors := none }) :=
  ((fallbackOrder "978-0-11" (by decide)).1 { title := some "T", authors := none }
    (Except.error ()) (Except.error ()) (fun _ => AuthorFetchResult.threw)
    (fun _ => AuthorFetchResult.threw)).1

/-- C6 counterexample: in `useBookByISBN.ts` a matched Google Books volume
with no title is returned with the title Unknown Title, not Untitled. -/
theorem missingFieldDefaults_counterexample :
    fetchBookByISBNHook "123" (Except.error ())
        (Except.ok (some { title := none, authors := none }))
      = some { title := "Unknown Title", authors := [] } ∧
    ("Unknown Title" : String) ≠ "Untitled" := by
  exact ⟨by decide, by decide⟩

/-- C6 (amended): in `scannerUtils.ts`/`App.tsx` a matched record with a
missing (or empty) title is returned with title Untitled and a record whose
authors field is not an array is returned with no authors, on the primary
and on the fallback source alike. In `useBookByISBN.ts` the primary source
only matches entries with a truthy title, and a matched Google Books volume
defaults its title to Unknown Title and its authors to the empty list. -/
theorem missingFieldDefaults (raw : String) (h : normalizeISBN raw ≠ "") :
    (∀ e s ao, jsStr e.title = none →
        fetchBookByISBN raw (Except.ok (some e)) s ao
          = some { title := "Untitled", authors := primaryAuthors e.authors }) ∧
      (∀ e s ao, e.authors = none →
        fetchBookByISBN raw (Except.ok (some e)) s ao
          = some { title := jsOrElse e.title "Untitled", authors := [] }) ∧
      (∀ wj ao, jsStr wj.title = none →
        (fetchBookByISBN raw (Except.error ()) (Except.ok wj) ao).map BookData.title
          = some "Untitled") ∧
      (∀ wj ao, wj.authors = none →
        (fetchBookByISBN raw (Except.error ()) (Except.ok wj) ao).map BookData.authors
          = some []) ∧
      (∀ v, jsStr v.title = none →
        (fetchBookByISBNHook raw (Except.error ())
            (Except.ok (some v))).map BookData.title
          = some "Unknown Title") ∧
      (∀ v, v.authors = none →
        (fetchBookByISBNHook raw (Except.error ())
            (Except.ok (some v))).map BookData.authors
          = some []) := by
  refine ⟨fun e s ao ht => ?_, fun e s ao ha => ?_, fun wj ao ht => ?_,
    fun wj ao ha => ?_, fun v ht => ?_, fun v ha => ?_⟩
  · simp [fetchBookByISBN, h, entryBook, jsOrElse, ht]
  · simp [fetchBookByISBN, h, entryBook, primaryAuthors, ha]
  · simp [fetchBookByISBN, h, runSecondary, jsOrElse, ht]
  · simp [fetchBookByISBN, h, runSecondary, ha]
  · simp [fetchBookByISBNHook, h, runHookSecondary, jsOrElse, ht]
  · simp [fetchBookByISBNHook, h, runHookSecondary, ha]

theorem missingFieldDefaults_witness :
    fetchBookByISBN "123" (Except.ok (some { title := none, authors := none }))
        (Except.error ()) (fun _ => AuthorFetchResult.threw)
      = some { title := "Untitled", authors := [] } := by
  have h := (missingFieldDefaults "123" (by decide)).1
    { title := none, authors := none } (Except.error ())
    (fun _ => AuthorFetchResult.threw) rfl
  simpa [primaryAuthors] using h

/-- C3: on an ISBN both sources miss, the resolver returns null and no book
is created — but, contrary to the claim's second half, no error is reported
either: the resolver never throws (every request failure is caught and
turned into null), so the react-query error stays null and the effect in
`ISBNFetcher.tsx` takes neither its save branch nor its report branch. -/
theorem notFound_effect :
    fetchBookByISBN "9999999999" (Except.ok none) (Except.error ())
        (fun _ => AuthorFetchResult.threw) = none ∧
      fetchBookByISBNHook "9999999999" (Except.ok none) (Except.ok none) = none ∧
      isbnFetcherEffect (some "9999999999")
          (queryOutcome (fetchBookByISBNHook "9999999999" (Except.ok none)
            (Except.ok none))).1
          (queryOutcome (fetchBookByISBNHook "9999999999" (Except.ok none)
            (Except.ok none))).2
          (some "GROUP-1")
        = FetcherAction.idle := by
  exact ⟨by decide, by decide, by decide⟩

/-- C4: a scan whose normalized code is still in the recent-scan set (the
set whose entries are scheduled for removal 5000 ms after insertion) is
dropped by handleScanned in `unnamed/part_005`: no lookup starts, the set
is unchanged, and no new expiry is scheduled. -/
theorem duplicateScanSuppressed (raw : String) (recent : List String)
    (hdup : checkDuplicateScan (normalizeISBN raw) recent = true) :
    p5HandleScanned raw recent = (ScanStep.ignored, recent, none) := by
  unfold p5HandleScanned
  by_cases h : normalizeISBN raw = ""
  · simp [h]
  · simp only [checkDuplicateScan] at hdup
    simp at hdup
    simp [h, hdup]

theorem duplicateScanSuppressed_witness :
    p5HandleScanned "12-3" ["123"] = (ScanStep.ignored, ["123"], none) :=
  duplicateScanSuppressed "12-3" ["123"] (by decide)

/-- C5 counterexample: exporting a state whose only group has the empty id
and importing the result back sets the active group to GROUP-1, not to the
first imported group's id (the empty string is falsy, so
`data.groups?.[0]?.id || 'GROUP-1'` takes the fallback). -/
theorem importExport_counterexample :
    (onImportJSON (parseExported (exportJSON
          { groups := [{ id := "", name := "G" }], items := [], activeGroupId := "" }))
        { groups := [], items := [], activeGroupId := "X" }).activeGroupId
      = "GROUP-1" ∧
    ("GROUP-1" : String) ≠ "" := by
  exact ⟨by decide, by decide⟩

/-- C5 (amended): exporting produces `{groups, items}`, and importing that
document into any state restores exactly the exported groups list and items
list; the active group becomes the first imported group's id whenever the
groups list is non-empty and that id is a non-empty string, and GROUP-1
otherwise. -/
theorem importExport_roundTrip (s t : AppState) :
    (onImportJSON (parseExported (exportJSON s)) t).groups = s.groups ∧
      (onImportJSON (parseExported (exportJSON s)) t).items = s.items ∧
      (onImportJSON (parseExported (exportJSON s)) t).activeGroupId
        = importedActiveGroupId s.groups ∧
      (∀ g gs, s.groups = g :: gs → g.id ≠ "" →
        (onImportJSON (parseExported (exportJSON s)) t).activeGroupId = g.id) := by
  refine ⟨rfl, rfl, rfl, fun g gs hg hid => ?_⟩
  simp [onImportJSON, parseExported, exportJSON, importedActiveGroupId, hg, hid]

theorem importExport_roundTrip_witness :
    (onImportJSON (parseExported (exportJSON
          { groups := [{ id := "GROUP-2", name := "G" }], items := [],
            activeGroupId := "GROUP-2" }))
        { groups := [], items := [], activeGroupId := "X" }).activeGroupId
      = "GROUP-2" :=
  (importExport_roundTrip
      { groups := [{ id := "GROUP-2", name := "G" }], items := [],
        activeGroupId := "GROUP-2" }
      { groups := [], items := [], activeGroupId := "X" }).2.2.2
    { id := "GROUP-2", name := "G" } [] rfl (by decide)

/-- C9: an import whose file is not valid JSON, or whose parsed value lacks a
truthy groups field or a truthy items field, leaves the whole state — groups,
items and active group id — unchanged. -/
theorem importRejected (parsed : Option ImportDoc) (s : AppState)
    (h : parsed = none ∨ ∃ d, parsed = some d ∧ (d.groups = none ∨ d.items = none)) :
    onImportJSON parsed s = s := by
  rcases h with h | ⟨d, hd, h⟩
  · simp [onImportJSON, h]
  · subst hd
    rcases d with ⟨dg, di⟩
    rcases h with h | h
    · subst h; simp [onImportJSON]
    · subst h; cases dg <;> simp [onImportJSON]

theorem importRejected_witness :
    onImportJSON (some { groups := none, items := some [] })
        { groups := [], items := [], activeGroupId := "X" }
      = { groups := [], items := [], activeGroupId := "X" } :=
  importRejected (some { groups := none, items := some [] })
    { groups := [], items := [], activeGroupId := "X" }
    (Or.inr ⟨{ groups := none, items := some [] }, rfl, Or.inl rfl⟩)

theorem clearGroup_map_eq {α : Type} (gid : String) (f : BookItem → α)
    (hf : ∀ it : BookItem, f { it with groupId := none } = f it) :
    ∀ items : List BookItem, (clearGroup gid items).map f = items.map f := by
  intro items
  induction items with
  | nil => rfl
  | cons a l ih =>
      by_cases h : a.groupId = some gid <;>
        simp only [clearGroup, List.map_cons, h, if_pos, if_neg, ite_true, ite_false,
          not_false_eq_true, hf] <;>
        simpa [clearGroup] using ih

theorem clearGroup_map_groupId (gid : String) :
    ∀ items : List BookItem, (clearGroup gid items).map BookItem.groupId
      = items.map (fun it => if it.groupId = some gid then none else it.groupId) := by
  intro items
  induction items with
  | nil => rfl
  | cons a l ih =>
      by_cases h : a.groupId = some gid <;>
        simp only [clearGroup, List.map_cons, h, ite_true, ite_false] <;>
        simpa [clearGroup] using ih

/-- C10: clearing a group rewrites the group reference to undefined on
exactly the items whose reference equals the cleared id and nothing else:
the groups list and active group are untouched, the number and order of
items is preserved, every per-item field other than the group reference is
preserved item-by-item, and the reference of every item not in the cleared
group is unchanged — in particular no item is deleted. -/
theorem clearGroup_frame (gid : String) (s : AppState) :
    (clearGroupState gid s).groups = s.groups ∧
      (clearGroupState gid s).activeGroupId = s.activeGroupId ∧
      (clearGroupState gid s).items.length = s.items.length ∧
      (clearGroupState gid s).items.map BookItem.id = s.items.map BookItem.id ∧
      (clearGroupState gid s).items.map BookItem.isbn = s.items.map BookItem.isbn ∧
      (clearGroupState gid s).items.map BookItem.title = s.items.map BookItem.title ∧
      (clearGroupState gid s).items.map BookItem.authors
        = s.items.map BookItem.authors ∧
      (clearGroupState gid s).items.map BookItem.groupId
        = s.items.map (fun it => if it.groupId = some gid then none else it.groupId) := by
  refine ⟨rfl, rfl, ?_, ?_, ?_, ?_, ?_, ?_⟩
  · simp [clearGroupState, clearGroup]
  · exact clearGroup_map_eq gid BookItem.id (fun _ => rfl) s.items
  · exact clearGroup_map_eq gid BookItem.isbn (fun _ => rfl) s.items
  · exact clearGroup_map_eq gid BookItem.title (fun _ => rfl) s.items
  · exact clearGroup_map_eq gid BookItem.authors (fun _ => rfl) s.items
  · exact clearGroup_map_groupId gid s.items

theorem noGroupedDup_iff_pairwise (l : List BookRow) :
    noGroupedDup l = true ↔ l.Pairwise (fun a b => conflicts a b = false) := by
  induction l with
  | nil => simp [noGroupedDup]
  | cons r rs ih =>
      simp [noGroupedDup, List.pairwise_cons, ih, List.any_eq_false,
        Bool.not_eq_true', and_comm]

theorem conflicts_none_left (r₁ r₂ : BookRow) (h : r₁.group_id = none) :
    conflicts r₁ r₂ = false := by
  simp only [conflicts, h]
  cases r₂.group_id <;> simp

theorem conflicts_none_right (r₁ r₂ : BookRow) (h : r₂.group_id = none) :
    conflicts r₁ r₂ = false := by
  simp only [conflicts, h]
  cases r₁.group_id <;> simp

theorem deleteGroupRows_preserves (g : String) (t : List BookRow)
    (h : noGroupedDup t = true) : noGroupedDup (deleteGroupRows g t) = true := by
  rw [noGroupedDup_iff_pairwise] at h ⊢
  rw [deleteGroupRows, List.pairwise_map]
  refine h.imp ?_
  intro a b hab
  by_cases ha : a.group_id = some g <;> by_cases hb : b.group_id = some g <;>
    simp only [ha, hb, ite_true, ite_false]
  · exact conflicts_none_left _ _ rfl
  · exact conflicts_none_left _ _ rfl
  · exact conflicts_none_right _ _ rfl
  · simpa [ha, hb] using hab

theorem noGroupedDup_sublist {l₁ l₂ : List BookRow} (hs : List.Sublist l₁ l₂)
    (h : noGroupedDup l₂ = true) : noGroupedDup l₁ = true := by
  rw [noGroupedDup_iff_pairwise] at h ⊢
  exact h.sublist hs

/-- C8 counterexample: a reachable table can hold two books of the same
owner with the same identifier and the same (null) group reference — insert
the ISBN into two different groups and delete both groups, whose
`ON DELETE SET NULL` cascade nulls both references; PostgreSQL's
`UNIQUE(user_id, isbn, group_id)` treats null groups as pairwise distinct,
so a direct duplicate insert with a null group is also accepted rather than
rejected. -/
theorem uniquenessInvariant_counterexample :
    ReachableTable
        [{ user_id := "u", isbn := "1111111111", title := "T", group_id := none },
          { user_id := "u", isbn := "1111111111", title := "T", group_id := none }] ∧
      noDupTriples
          [{ user_id := "u", isbn := "1111111111", title := "T", group_id := none },
            { user_id := "u", isbn := "1111111111", title := "T", group_id := none }]
        = false ∧
      insertBook
          [{ user_id := "u", isbn := "1111111111", title := "T", group_id := none }]
          { user_id := "u", isbn := "1111111111", title := "T", group_id := none }
        = some
          [{ user_id := "u", isbn := "1111111111", title := "T", group_id := none },
            { user_id := "u", isbn := "1111111111", title := "T", group_id := none }] := by
  refine ⟨?_, by decide, by decide⟩
  have h1 := ReachableTable.insert []
    { user_id := "u", isbn := "1111111111", title := "T", group_id := some "g1" }
    [{ user_id := "u", isbn := "1111111111", title := "T", group_id := some "g1" }]
    ReachableTable.empty (by decide)
  have h2 := ReachableTable.insert
    [{ user_id := "u", isbn := "1111111111", title := "T", group_id := some "g1" }]
    { user_id := "u", isbn := "1111111111", title := "T", group_id := some "g2" }
    [{ user_id := "u", isbn := "1111111111", title := "T", group_id := some "g2" },
      { user_id := "u", isbn := "1111111111", title := "T", group_id := some "g1" }]
    h1 (by decide)
  have h3 := ReachableTable.delGroup _ "g1" h2
  have h4 := ReachableTable.delGroup _ "g2" h3
  have he : deleteGroupRows "g2" (deleteGroupRows "g1"
        [{ user_id := "u", isbn := "1111111111", title := "T", group_id := some "g2" },
          { user_id := "u", isbn := "1111111111", title := "T", group_id := some "g1" }])
      = [{ user_id := "u", isbn := "1111111111", title := "T", group_id := none },
          { user_id := "u", isbn := "1111111111", title := "T", group_id := none }] := by
    decide
  exact he ▸ h4

/-- C8 (amended): every table state reachable through the data layer is free
of duplicate (owner, identifier, group) triples among books whose group
reference is non-null — the SQL constraint does not restrict books without
a group, since `UNIQUE` treats null as distinct — with duplicate inserts
into the same non-null group rejected; and scanning an ISBN already present
in the active box is ignored by handleScanned in `unnamed/part_004` without
starting a lookup. -/
theorem uniquenessInvariant (t : List BookRow) (h : ReachableTable t) :
    noGroupedDup t = true ∧
      (∀ raw items box it, it ∈ items → it.isbn = normalizeISBN raw →
        it.groupId = some box →
        ∀ i, p4HandleScanned raw items box ≠ ScanStep.lookup i) := by
  constructor
  · induction h with
    | empty => rfl
    | insert t r t' ht hins ih =>
        rw [insertBook] at hins
        split at hins
        · exact absurd hins (by simp)
        · rename_i hc
          cases hins
          simp only [noGroupedDup, Bool.and_eq_true, Bool.not_eq_true']
          exact ⟨Bool.eq_false_iff.mpr hc, ih⟩
    | delGroup t g ht ih => exact deleteGroupRows_preserves g t ih
    | remove t r ht ih => exact noGroupedDup_sublist (List.erase_sublist r t) ih
  · intro raw items box it hmem hisbn hbox i
    by_cases he : normalizeISBN raw = ""
    · simp [p4HandleScanned, he]
    · have hs : (items.find?
          (fun x => x.isbn == normalizeISBN raw && x.groupId == some box)).isSome := by
        rw [List.find?_isSome]
        exact ⟨it, hmem, by simp [hisbn, hbox]⟩
      obtain ⟨x, hx⟩ := Option.isSome_iff_exists.mp hs
      simp [p4HandleScanned, he, hx]

theorem uniquenessInvariant_witness :
    noGroupedDup [] = true ∧
      p4HandleScanned "123"
          [{ id := "id1", isbn := "123", title := "T", authors := [],
              groupId := some "BOX-1" }] "BOX-1"
        ≠ ScanStep.lookup "123" := by
  have h := uniquenessInvariant [] ReachableTable.empty
  exact ⟨h.1, h.2 "123"
    [{ id := "id1", isbn := "123", title := "T", authors := [],
        groupId := some "BOX-1" }] "BOX-1"
    { id := "id1", isbn := "123", title := "T", authors := [],
        groupId := some "BOX-1" }
    (List.mem_singleton.mpr rfl) (by decide) rfl "123"⟩

end BookScanner
